import Mathlib

/-!
Shallow embedding of the core trading logic of liza_crypt_trader.

Sources embedded:
* src/trader.py        — module constants, TradingModel position state machine
                         (decide_position, get_signal, bulk_initialize_window, ready)
                         and the reconciliation arithmetic of TraderManager.step
* src/model.py         — the output clamp of HybridTechnicalModel.predict_up_probability
* src/ml_modules/data_processing.py — calculate_valid_start_index

Numeric conventions: Python ints are modelled as ℤ, prices / standard
deviations / probabilities as ℚ (idealising float64 rounding).  The one
place where IEEE-754 semantics are observable is the division
risk = delta / std in decide_position when the stored std is 0: float64
gives +inf (delta > 0), -inf (delta < 0) or NaN (delta = 0) rather than a
rational value, so the two risk comparisons are embedded as explicit
case splits that reproduce exactly those comparison outcomes.
-/

namespace Liza

/-! ## Module constants (src/trader.py lines 16-20) -/

def BASE_AMOUNT : ℚ := 1 / 1000

def THRESHOLD_UP : ℚ := 1 / 2

def THRESHOLD_DOWN : ℚ := 1 / 2

def RIKAKU_STD : ℚ := 2

def SONKIRI_STD : ℚ := 1

/-! ## Position state (src/trader.py line 67)

The position dict has the four fields side / count / price / std. -/

structure Position where
  side : ℤ
  count : ℤ
  price : ℚ
  std : ℚ
deriving DecidableEq

/-- Initial position, src/trader.py line 67: all four fields zero. -/
def initPosition : Position := ⟨0, 0, 0, 0⟩

/-! ## Predicted side (src/trader.py line 117)

predicted_side = 1 if prob > THRESHOLD_UP else -1 if prob <= THRESHOLD_DOWN
else 0.  The thresholds are passed explicitly so that the derivation can be
stated for arbitrary thresholds as well as for the module defaults. -/

def predicted_side_thr (prob up down : ℚ) : ℤ :=
  if up < prob then 1 else if prob ≤ down then -1 else 0

/-- Line 117 with the module-level default thresholds. -/
def predictedSide (prob : ℚ) : ℤ :=
  predicted_side_thr prob THRESHOLD_UP THRESHOLD_DOWN

/-! ## Risk comparisons (src/trader.py lines 124-130)

risk = delta / std as float64, then risk > RIKAKU_STD and
risk < -SONKIRI_STD.  For std ≠ 0 this is exact rational division; for
std = 0 the float64 quotient is +inf / -inf / NaN depending on the sign of
delta, and each comparison below reproduces the outcome of comparing that
value against the threshold. -/

def risk_gt_rikaku (delta std : ℚ) : Bool :=
  if std = 0 then decide (0 < delta) else decide (RIKAKU_STD < delta / std)

def risk_lt_sonkiri (delta std : ℚ) : Bool :=
  if std = 0 then decide (delta < 0) else decide (delta / std < -SONKIRI_STD)

/-! ## Position transition (src/trader.py lines 105-149)

decide_position reads the tick inputs current_price (line 114),
std = np.std(price_history) (line 115) and prob (line 116); these are
passed here as arguments and the function returns the updated position.
The early return when not ready() (line 111) guards the whole body, so
this function models one processed tick. -/

def decide_position (p : ℤ) (s : Position) (current_price std prob : ℚ) :
    Position :=
  let pred := predictedSide prob
  if s.side ≠ 0 then
    -- lines 122-145: holding branch
    let count' := s.count - 1
    let delta := (current_price - s.price) * (s.side : ℚ)
    let exitF := decide (count' = 0) || risk_gt_rikaku delta s.std ||
      risk_lt_sonkiri delta s.std
    if exitF then
      if pred = s.side then ⟨s.side, p, current_price, std⟩
      else if pred = -s.side then ⟨pred, p, current_price, std⟩
      else ⟨0, 0, 0, 0⟩
    else ⟨s.side, count', s.price, s.std⟩
  else if pred ≠ 0 then ⟨pred, p, current_price, std⟩
  else s

/-- Modelled from the spec: the variant of the holding-branch exit test in
which a zero entry volatility makes risk equal 0, so that neither risk
comparison can fire and only count exhaustion triggers an exit.  The spec
prescribes this behaviour; decide_position above is what the source does. -/
def decide_position_risk0 (p : ℤ) (s : Position) (current_price std prob : ℚ) :
    Position :=
  let pred := predictedSide prob
  if s.side ≠ 0 then
    let count' := s.count - 1
    let delta := (current_price - s.price) * (s.side : ℚ)
    let exitF := decide (count' = 0) ||
      (if s.std = 0 then false else risk_gt_rikaku delta s.std) ||
      (if s.std = 0 then false else risk_lt_sonkiri delta s.std)
    if exitF then
      if pred = s.side then ⟨s.side, p, current_price, std⟩
      else if pred = -s.side then ⟨pred, p, current_price, std⟩
      else ⟨0, 0, 0, 0⟩
    else ⟨s.side, count', s.price, s.std⟩
  else if pred ≠ 0 then ⟨pred, p, current_price, std⟩
  else s

/-- src/trader.py line 157: side if count > 0 else 0. -/
def get_signal (s : Position) : ℤ :=
  if 0 < s.count then s.side else 0

/-! ## Tick sequences -/

/-- One tick's inputs: price, window standard deviation, oracle probability. -/
structure TickInput where
  price : ℚ
  std : ℚ
  prob : ℚ

/-- Folding decide_position over a list of processed ticks. -/
def run_ticks (p : ℤ) (s : Position) (ticks : List TickInput) : Position :=
  ticks.foldl (fun st t => decide_position p st t.price t.std t.prob) s

/-- The position well-formedness invariant: the flat state (side 0) carries
no count / price / volatility, and a holding state has side +1 or -1 and at
least one remaining tick. -/
def Inv (s : Position) : Prop :=
  (s.side = 0 → s.count = 0 ∧ s.price = 0 ∧ s.std = 0) ∧
  (s.side ≠ 0 → (s.side = 1 ∨ s.side = -1) ∧ 1 ≤ s.count)

/-! ## Warm-start (src/trader.py lines 79-103) -/

/-- src/trader.py line 85: ready iff at least k prices are stored. -/
def ready (k : ℕ) (price_history : List ℚ) : Bool :=
  decide (k ≤ price_history.length)

/-- src/trader.py lines 87-103: price_history =
historical_prices[valid_start : valid_start + k], a Python slice with
non-negative bounds, i.e. drop valid_start then take k.  No length check is
performed (the source comment at line 97 notes the missing handling). -/
def bulk_initialize_window (valid_start k : ℕ) (historical_prices : List ℚ) :
    List ℚ :=
  (historical_prices.drop valid_start).take k

/-- src/historical_data.py lines 216-257, given an already fetched history:
returns (success flag, new price_history).  An empty fetch returns False and
leaves the old history; otherwise bulk_initialize_window runs (it cannot raise) and
True is returned regardless of whether the model became ready. -/
def initialize_single_model (valid_start k : ℕ) (old hist : List ℚ) :
    Bool × List ℚ :=
  if hist.isEmpty then (false, old) else (true, bulk_initialize_window valid_start k hist)

/-! ## Valid start index (src/ml_modules/data_processing.py lines 11-37) -/

def calculate_valid_start_index (sma_short_window sma_mid_window
    sma_long_window bollinger_band_window macd_long_window macd_signal_window
    rsi_window : ℤ) : ℤ :=
  let sma_start := max (max sma_short_window sma_mid_window) sma_long_window - 1
  let bollinger_start := bollinger_band_window - 1
  let macd_start := macd_long_window - 1 + macd_signal_window - 1
  let rsi_start := rsi_window
  max (max (max sma_start bollinger_start) macd_start) rsi_start

/-- The default indicator windows of TradingModel.__init__
(src/trader.py lines 29-31). -/
def default_valid_start_index : ℤ :=
  calculate_valid_start_index 5 20 60 20 26 9 14

/-! ## Oracle output clamp (src/model.py line 86) -/

/-- max(0.0, min(1.0, up_probability)) applied to the raw model output. -/
def predict_up_probability_clamp (x : ℚ) : ℚ :=
  max 0 (min 1 x)

/-! ## Reconciliation (src/trader.py lines 220-231) -/

inductive OrderSide where
  | BUY : OrderSide
  | SELL : OrderSide
deriving DecidableEq

/-- delta = signal - actual_position / BASE_AMOUNT; no order when delta = 0,
otherwise one order of side BUY iff delta > 0 and size abs(delta) *
BASE_AMOUNT. -/
def reconcile (signal : ℤ) (actual_position base_amount : ℚ) :
    Option (OrderSide × ℚ) :=
  let delta : ℚ := (signal : ℚ) - actual_position / base_amount
  if delta = 0 then none
  else some (if 0 < delta then OrderSide.BUY else OrderSide.SELL,
    |delta| * base_amount)

/-! ## Helper lemmas -/

/-- The predicted side only takes the values 1, -1 and 0. -/
lemma predictedSide_cases (prob : ℚ) :
    predictedSide prob = 1 ∨ predictedSide prob = -1 ∨ predictedSide prob = 0 := by
  unfold predictedSide predicted_side_thr
  split_ifs <;> simp

/-- Unfolding of the holding branch of decide_position when the exit flag
computes to true. -/
lemma decide_position_holding_exit (p : ℤ) (s : Position) (cp std prob : ℚ)
    (hside : s.side ≠ 0)
    (hflag : (decide (s.count - 1 = 0) ||
        risk_gt_rikaku ((cp - s.price) * (s.side : ℚ)) s.std ||
        risk_lt_sonkiri ((cp - s.price) * (s.side : ℚ)) s.std) = true) :
    decide_position p s cp std prob =
      if predictedSide prob = s.side then ⟨s.side, p, cp, std⟩
      else if predictedSide prob = -s.side then ⟨predictedSide prob, p, cp, std⟩
      else ⟨0, 0, 0, 0⟩ := by
  simp only [decide_position]
  rw [if_pos hside, if_pos hflag]

/-- Unfolding of the holding branch of decide_position when the exit flag
computes to false: only the count is decremented. -/
lemma decide_position_holding_noexit (p : ℤ) (s : Position) (cp std prob : ℚ)
    (hside : s.side ≠ 0)
    (hflag : (decide (s.count - 1 = 0) ||
        risk_gt_rikaku ((cp - s.price) * (s.side : ℚ)) s.std ||
        risk_lt_sonkiri ((cp - s.price) * (s.side : ℚ)) s.std) = false) :
    decide_position p s cp std prob = ⟨s.side, s.count - 1, s.price, s.std⟩ := by
  simp only [decide_position]
  rw [if_pos hside, if_neg (by simp [hflag])]

/-- Unfolding of the flat branch of decide_position. -/
lemma decide_position_flat (p : ℤ) (s : Position) (cp std prob : ℚ)
    (hside : s.side = 0) :
    decide_position p s cp std prob =
      if predictedSide prob ≠ 0 then ⟨predictedSide prob, p, cp, std⟩ else s := by
  simp only [decide_position]
  rw [if_neg (by simp [hside])]

/-- One decide_position tick preserves the position invariant when the hold
length is at least 1. -/
lemma Inv_step (p : ℤ) (hp : 1 ≤ p) (s : Position) (hs : Inv s)
    (cp std prob : ℚ) : Inv (decide_position p s cp std prob) := by
  by_cases hside : s.side = 0
  · rw [decide_position_flat p s cp std prob hside]
    by_cases hpred : predictedSide prob = 0
    · rw [if_neg (by simp [hpred])]
      exact hs
    · rw [if_pos hpred]
      simp only [Inv]
      refine ⟨fun h => absurd h hpred, fun _ => ⟨?_, hp⟩⟩
      rcases predictedSide_cases prob with h | h | h
      · exact Or.inl h
      · exact Or.inr h
      · exact absurd h hpred
  · have hS : (s.side = 1 ∨ s.side = -1) ∧ 1 ≤ s.count := hs.2 hside
    rcases Bool.eq_false_or_eq_true (decide (s.count - 1 = 0) ||
        risk_gt_rikaku ((cp - s.price) * (s.side : ℚ)) s.std ||
        risk_lt_sonkiri ((cp - s.price) * (s.side : ℚ)) s.std) with hflag | hflag
    · rw [decide_position_holding_exit p s cp std prob hside hflag]
      by_cases h1 : predictedSide prob = s.side
      · rw [if_pos h1]
        simp only [Inv]
        exact ⟨fun h => absurd h hside, fun _ => ⟨hS.1, hp⟩⟩
      · rw [if_neg h1]
        by_cases h2 : predictedSide prob = -s.side
        · rw [if_pos h2]
          simp only [Inv]
          constructor
          · intro h
            rw [h] at h2
            exact absurd (by omega : s.side = 0) hside
          · intro _
            refine ⟨?_, hp⟩
            rw [h2]
            rcases hS.1 with h | h <;> omega
        · rw [if_neg h2]
          simp [Inv]
    · rw [decide_position_holding_noexit p s cp std prob hside hflag]
      have hcount : ¬ (s.count - 1 = 0) := by
        intro h0
        simp [h0] at hflag
      simp only [Inv]
      refine ⟨fun h => absurd h hside, fun _ => ⟨hS.1, ?_⟩⟩
      have := hS.2
      omega

/-! ## Theorems -/

/-- Claim C5: for strictly positive window parameters,
calculate_valid_start_index equals max(max(smaShort, smaMid, smaLong) - 1,
band - 1, (macdLong - 1) + (macdSignal - 1), rsi) — the oscillator term
without the minus one — and is monotonically non-decreasing in every
individual parameter. -/
theorem C5_valid_start_index (s m l band macdL macdS rsi : ℤ)
    (hs : 0 < s) (hm : 0 < m) (hl : 0 < l) (hb : 0 < band)
    (hml : 0 < macdL) (hms : 0 < macdS) (hr : 0 < rsi) :
    calculate_valid_start_index s m l band macdL macdS rsi =
      max (max (max (max (max s m) l - 1) (band - 1))
        ((macdL - 1) + (macdS - 1))) rsi ∧
    (∀ x, s ≤ x → calculate_valid_start_index s m l band macdL macdS rsi ≤
      calculate_valid_start_index x m l band macdL macdS rsi) ∧
    (∀ x, m ≤ x → calculate_valid_start_index s m l band macdL macdS rsi ≤
      calculate_valid_start_index s x l band macdL macdS rsi) ∧
    (∀ x, l ≤ x → calculate_valid_start_index s m l band macdL macdS rsi ≤
      calculate_valid_start_index s m x band macdL macdS rsi) ∧
    (∀ x, band ≤ x → calculate_valid_start_index s m l band macdL macdS rsi ≤
      calculate_valid_start_index s m l x macdL macdS rsi) ∧
    (∀ x, macdL ≤ x → calculate_valid_start_index s m l band macdL macdS rsi ≤
      calculate_valid_start_index s m l band x macdS rsi) ∧
    (∀ x, macdS ≤ x → calculate_valid_start_index s m l band macdL macdS rsi ≤
      calculate_valid_start_index s m l band macdL x rsi) ∧
    (∀ x, rsi ≤ x → calculate_valid_start_index s m l band macdL macdS rsi ≤
      calculate_valid_start_index s m l band macdL macdS x) := by
  refine ⟨?_, fun x h => ?_, fun x h => ?_, fun x h => ?_, fun x h => ?_,
    fun x h => ?_, fun x h => ?_, fun x h => ?_⟩ <;>
    simp only [calculate_valid_start_index] <;> omega

/-- Claim C5 witness: concrete instance at the default configuration. -/
theorem C5_witness :
    calculate_valid_start_index 5 20 60 20 26 9 14 =
      max (max (max (max (max 5 20) 60 - 1) (20 - 1)) ((26 - 1) + (9 - 1))) 14 ∧
    calculate_valid_start_index 5 20 60 20 26 9 14 ≤
      calculate_valid_start_index 5 20 60 20 26 9 15 :=
  ⟨(C5_valid_start_index 5 20 60 20 26 9 14 (by norm_num) (by norm_num)
      (by norm_num) (by norm_num) (by norm_num) (by norm_num) (by norm_num)).1,
    (C5_valid_start_index 5 20 60 20 26 9 14 (by norm_num) (by norm_num)
      (by norm_num) (by norm_num) (by norm_num) (by norm_num)
      (by norm_num)).2.2.2.2.2.2.2 15 (by norm_num)⟩

/-- Claim C6: predictedSide is +1 if pUp > upThreshold, -1 if
pUp <= downThreshold, else 0; with the default thresholds both 0.5 there is
no neutral band and pUp = 0.5 resolves to -1. -/
theorem C6_predicted_side_derivation :
    (∀ prob up down : ℚ,
      (up < prob → predicted_side_thr prob up down = 1) ∧
      (¬ up < prob → prob ≤ down → predicted_side_thr prob up down = -1) ∧
      (¬ up < prob → ¬ prob ≤ down → predicted_side_thr prob up down = 0)) ∧
    predictedSide (1 / 2) = -1 ∧
    ∀ prob : ℚ, predictedSide prob ≠ 0 := by
  refine ⟨fun prob up down => ⟨fun h1 => ?_, fun h1 h2 => ?_, fun h1 h2 => ?_⟩,
    ?_, fun prob => ?_⟩
  · rw [predicted_side_thr, if_pos h1]
  · rw [predicted_side_thr, if_neg h1, if_pos h2]
  · rw [predicted_side_thr, if_neg h1, if_neg h2]
  · norm_num [predictedSide, predicted_side_thr, THRESHOLD_UP, THRESHOLD_DOWN]
  · simp only [predictedSide, predicted_side_thr, THRESHOLD_UP, THRESHOLD_DOWN]
    split_ifs with h1 h2
    · norm_num
    · norm_num
    · exact absurd (le_of_not_lt h1) h2

/-- Claim C6 witness: a probability strictly above the default threshold
yields the bullish side. -/
theorem C6_witness : predicted_side_thr (3 / 4) (1 / 2) (1 / 2) = 1 :=
  (C6_predicted_side_derivation.1 (3 / 4) (1 / 2) (1 / 2)).1 (by norm_num)

/-- Claim C10: the raw model output is clamped to exactly
max(0, min(1, x)), so the probability delivered to the decision step always
lies in the interval from 0 to 1. -/
theorem C10_predict_probability_clamped (x : ℚ) :
    0 ≤ predict_up_probability_clamp x ∧ predict_up_probability_clamp x ≤ 1 ∧
    (x < 0 → predict_up_probability_clamp x = 0) ∧
    (1 < x → predict_up_probability_clamp x = 1) ∧
    (0 ≤ x → x ≤ 1 → predict_up_probability_clamp x = x) := by
  unfold predict_up_probability_clamp
  refine ⟨le_max_left _ _, max_le (by norm_num) (min_le_left _ _),
    fun h => ?_, fun h => ?_, fun h1 h2 => ?_⟩
  · exact max_eq_left (le_trans (min_le_right 1 x) h.le)
  · rw [min_eq_left h.le]; norm_num
  · rw [min_eq_right h2]; exact max_eq_right h1

/-- Claim C10 witness: a raw output above 1 is clamped to 1. -/
theorem C10_witness : predict_up_probability_clamp (3 / 2) = 1 :=
  (C10_predict_probability_clamped (3 / 2)).2.2.2.1 (by norm_num)

/-- Claim C8: delta = targetUnits - actualUnits; no intent when delta = 0,
otherwise exactly one intent with side BUY iff delta > 0 and size
abs(delta) scaled by the unit size; target 3 units against 1 held unit at
unit size 0.001 yields a BUY of 0.002. -/
theorem C8_reconcile_delta :
    (∀ (signal : ℤ) (actual unit : ℚ),
      ((signal : ℚ) - actual / unit = 0 → reconcile signal actual unit = none) ∧
      (0 < (signal : ℚ) - actual / unit →
        reconcile signal actual unit =
          some (OrderSide.BUY, |(signal : ℚ) - actual / unit| * unit)) ∧
      ((signal : ℚ) - actual / unit < 0 →
        reconcile signal actual unit =
          some (OrderSide.SELL, |(signal : ℚ) - actual / unit| * unit))) ∧
    reconcile 0 0 BASE_AMOUNT = none ∧
    reconcile 3 (1 * BASE_AMOUNT) BASE_AMOUNT =
      some (OrderSide.BUY, 2 / 1000) := by
  refine ⟨fun signal actual unit => ⟨fun h => ?_, fun h => ?_, fun h => ?_⟩,
    ?_, ?_⟩
  · simp [reconcile, h]
  · rw [reconcile]; simp only [if_neg h.ne', if_pos h]
  · rw [reconcile]; simp only [if_neg h.ne, if_neg (not_lt_of_lt h)]
  · norm_num [reconcile, BASE_AMOUNT]
  · norm_num [reconcile, BASE_AMOUNT]

/-- Claim C8 witness: the concrete reconciliation of target 3 against one
held unit, through the general delta characterization. -/
theorem C8_witness :
    reconcile 3 (1 / 1000) (1 / 1000) =
      some (OrderSide.BUY, |(3 : ℚ) - (1 / 1000) / (1 / 1000)| * (1 / 1000)) :=
  ((C8_reconcile_delta.1 3 (1 / 1000) (1 / 1000)).2.1 (by norm_num))

/-- Claim C1: on a Holding tick (side nonzero) with a nonzero stored entry
volatility, decide_position decrements the count by exactly 1, computes
risk = (currentPrice - entryPrice) * side / entryVolatility and the exit
flag (count exhausted, or risk above rikaku, or risk below -sonkiri); on
exit it reopens the same side, flips directly to the opposite side, or ends
Flat, according to the predicted side, with fresh count p, entry price and
entry volatility; without exit only the count is decremented. -/
theorem C1_holding_transition (p : ℤ) (s : Position) (cp std prob : ℚ)
    (hside : s.side ≠ 0) (hstd : s.std ≠ 0) :
    ((s.count - 1 = 0 ∨
        RIKAKU_STD < (cp - s.price) * (s.side : ℚ) / s.std ∨
        (cp - s.price) * (s.side : ℚ) / s.std < -SONKIRI_STD) →
      (predictedSide prob = s.side →
        decide_position p s cp std prob = ⟨s.side, p, cp, std⟩) ∧
      (predictedSide prob = -s.side →
        decide_position p s cp std prob = ⟨predictedSide prob, p, cp, std⟩) ∧
      (predictedSide prob = 0 →
        decide_position p s cp std prob = initPosition)) ∧
    (¬ (s.count - 1 = 0 ∨
        RIKAKU_STD < (cp - s.price) * (s.side : ℚ) / s.std ∨
        (cp - s.price) * (s.side : ℚ) / s.std < -SONKIRI_STD) →
      decide_position p s cp std prob = ⟨s.side, s.count - 1, s.price, s.std⟩) := by
  have hgt : risk_gt_rikaku ((cp - s.price) * (s.side : ℚ)) s.std =
      decide (RIKAKU_STD < (cp - s.price) * (s.side : ℚ) / s.std) := by
    rw [risk_gt_rikaku, if_neg hstd]
  have hlt : risk_lt_sonkiri ((cp - s.price) * (s.side : ℚ)) s.std =
      decide ((cp - s.price) * (s.side : ℚ) / s.std < -SONKIRI_STD) := by
    rw [risk_lt_sonkiri, if_neg hstd]
  constructor
  · intro hex
    have hflag : (decide (s.count - 1 = 0) ||
        risk_gt_rikaku ((cp - s.price) * (s.side : ℚ)) s.std ||
        risk_lt_sonkiri ((cp - s.price) * (s.side : ℚ)) s.std) = true := by
      rw [hgt, hlt]
      simp only [Bool.or_eq_true, decide_eq_true_eq]
      tauto
    rw [decide_position_holding_exit p s cp std prob hside hflag]
    refine ⟨fun h1 => ?_, fun h1 => ?_, fun h1 => ?_⟩
    · rw [if_pos h1]
    · rw [if_neg, if_pos h1]
      intro he
      rw [he] at h1
      exact hside (by omega)
    · rw [if_neg (fun he => hside (he.symm.trans h1)),
        if_neg (fun he => hside (neg_eq_zero.mp (he.symm.trans h1)))]
      rfl
  · intro hex
    have hflag : (decide (s.count - 1 = 0) ||
        risk_gt_rikaku ((cp - s.price) * (s.side : ℚ)) s.std ||
        risk_lt_sonkiri ((cp - s.price) * (s.side : ℚ)) s.std) = false := by
      rw [hgt, hlt]
      simp only [Bool.or_eq_false_iff, decide_eq_false_iff_not]
      exact ⟨⟨fun h => hex (Or.inl h), fun h => hex (Or.inr (Or.inl h))⟩,
        fun h => hex (Or.inr (Or.inr h))⟩
    exact decide_position_holding_noexit p s cp std prob hside hflag

/-- Claim C1 witness: a held long position with four remaining ticks and no
risk trigger only loses one tick of count. -/
theorem C1_witness :
    decide_position 30 ⟨1, 5, 100, 4⟩ 101 3 (9 / 10) = ⟨1, 4, 100, 4⟩ :=
  (C1_holding_transition 30 ⟨1, 5, 100, 4⟩ 101 3 (9 / 10) (by norm_num)
    (by norm_num)).2 (by push_cast; norm_num [RIKAKU_STD, SONKIRI_STD])

/-- Claim C7: get_signal returns the side exactly when the position is
holding with a positive remaining count, and 0 otherwise; in particular a
tick on which the count reaches 0 and the position is not renewed (the tick
ends Flat) already reports signal 0 on that same tick. -/
theorem C7_get_signal :
    (∀ s : Position,
      get_signal s = if s.side ≠ 0 ∧ 0 < s.count then s.side else 0) ∧
    (∀ (p : ℤ) (s : Position) (cp std prob : ℚ), s.side ≠ 0 →
      s.count - 1 = 0 → (decide_position p s cp std prob).side = 0 →
      get_signal (decide_position p s cp std prob) = 0) := by
  constructor
  · intro s
    simp only [get_signal]
    split_ifs <;> omega
  · intro p s cp std prob hside hcount hflat
    have hflag : (decide (s.count - 1 = 0) ||
        risk_gt_rikaku ((cp - s.price) * (s.side : ℚ)) s.std ||
        risk_lt_sonkiri ((cp - s.price) * (s.side : ℚ)) s.std) = true := by
      simp [hcount]
    rw [decide_position_holding_exit p s cp std prob hside hflag] at hflat ⊢
    by_cases h1 : predictedSide prob = s.side
    · rw [if_pos h1] at hflat
      exact absurd hflat hside
    · rw [if_neg h1] at hflat ⊢
      by_cases h2 : predictedSide prob = -s.side
      · rw [if_pos h2] at hflat
        have hps : predictedSide prob = 0 := hflat
        rw [hps] at h2
        exact absurd (by omega : s.side = 0) hside
      · rw [if_neg h2]
        simp [get_signal]

/-- Claim C7 witness: a position whose count expires without renewal (the
predicted side matches neither the prior side nor its opposite) reports
signal 0 on the same tick. -/
theorem C7_witness :
    get_signal (decide_position 30 ⟨2, 1, 100, 5⟩ 101 3 (1 / 2)) = 0 :=
  C7_get_signal.2 30 ⟨2, 1, 100, 5⟩ 101 3 (1 / 2) (by norm_num) (by norm_num)
    (by with_unfolding_all rfl)

/-- Claim C9: every position reachable from the initial Flat state through
decide_position ticks, with hold length p at least 1, satisfies the
invariant: a holding position has side +1 or -1 and count at least 1, and
the side-0 state carries zero count, price and volatility. -/
theorem C9_reachable_invariant (p : ℤ) (hp : 1 ≤ p) (ticks : List TickInput) :
    Inv (run_ticks p initPosition ticks) := by
  have hrun : ∀ (ts : List TickInput) (s : Position), Inv s →
      Inv (run_ticks p s ts) := by
    intro ts
    induction ts with
    | nil => exact fun s h => h
    | cons t ts ih =>
      intro s h
      exact ih _ (Inv_step p hp s h t.price t.std t.prob)
  have hinit : Inv initPosition := by simp [Inv, initPosition]
  exact hrun ticks initPosition hinit

/-- Claim C9 witness: the invariant holds after a concrete two-tick run. -/
theorem C9_witness :
    Inv (run_ticks 30 initPosition [⟨100, 5, 9 / 10⟩, ⟨101, 5, 1 / 10⟩]) :=
  C9_reachable_invariant 30 (by norm_num) [⟨100, 5, 9 / 10⟩, ⟨101, 5, 1 / 10⟩]

/-- Claim C2 counterexample: with the default configuration
(validStartIndex 59, k 90) a fetched history of 148 prices is shorter than
validStartIndex + k = 149, yet initialization reports success (no
InsufficientHistory failure) and installs a silent 89-element window. -/
theorem C2_counterexample :
    default_valid_start_index = 59 ∧ (148 : ℕ) < 59 + 90 ∧
    (initialize_single_model 59 90 [] (List.replicate 148 (100 : ℚ))).1 = true ∧
    (bulk_initialize_window 59 90 (List.replicate 148 (100 : ℚ))).length = 89 :=
  ⟨by decide, by norm_num, by with_unfolding_all rfl, by
    simp [bulk_initialize_window]⟩

/-- Claim C2 amended: bulk_initialize_window never fails; when the history holds at
least validStartIndex + k prices it installs exactly k consecutive elements
starting at history[validStartIndex]; when the history is shorter, the
engine silently ends up with fewer than k prices and stays un-ready (not a
crash), while initialize_single_model still reports success for any
non-empty fetch. -/
theorem C2_align_window (valid_start k : ℕ) (hk : 1 ≤ k) (old hist : List ℚ) :
    (valid_start + k ≤ hist.length →
      (bulk_initialize_window valid_start k hist).length = k ∧
      ∀ i, i < k → (bulk_initialize_window valid_start k hist)[i]? =
        hist[valid_start + i]?) ∧
    (hist.length < valid_start + k →
      (bulk_initialize_window valid_start k hist).length < k ∧
      ready k (bulk_initialize_window valid_start k hist) = false) ∧
    (hist ≠ [] → (initialize_single_model valid_start k old hist).1 = true) := by
  refine ⟨fun h => ⟨?_, fun i hi => ?_⟩, fun h => ?_, fun h => ?_⟩
  · simp only [bulk_initialize_window, List.length_take, List.length_drop]
    omega
  · rw [bulk_initialize_window, List.getElem?_take_of_lt hi, List.getElem?_drop]
  · have hlen : (bulk_initialize_window valid_start k hist).length < k := by
      simp only [bulk_initialize_window, List.length_take, List.length_drop]
      omega
    refine ⟨hlen, ?_⟩
    simp only [ready, decide_eq_false_iff_not]
    omega
  · have he : hist.isEmpty = false := by simp [List.isEmpty_eq_false, h]
    rw [initialize_single_model, if_neg (by simp [he])]

/-- Claim C2 witness: a history of exactly validStartIndex + k prices warms
the window to exactly k elements. -/
theorem C2_witness :
    (bulk_initialize_window 59 90 (List.replicate 149 (100 : ℚ))).length = 90 :=
  ((C2_align_window 59 90 (by norm_num) [] (List.replicate 149 (100 : ℚ))).1
    (by simp)).1

/-- Claim C3 counterexample: a holding long position with stored entry
volatility 0, positive unrealized delta and four remaining ticks: the
source's IEEE division makes the risk +infinity, so it exits and flips on
this tick, while the spec's risk = 0 reading (decide_position_risk0) would
merely decrement the count and keep the position. -/
theorem C3_counterexample :
    decide_position 30 ⟨1, 5, 100, 0⟩ 101 3 (1 / 2) = ⟨-1, 30, 101, 3⟩ ∧
    decide_position_risk0 30 ⟨1, 5, 100, 0⟩ 101 3 (1 / 2) = ⟨1, 4, 100, 0⟩ :=
  ⟨by with_unfolding_all rfl, by with_unfolding_all rfl⟩

/-- Claim C3 amended: with entry volatility 0 the step never faults, but the
risk is not treated as 0: the float64 quotient is +inf or -inf whenever the
unrealized delta is nonzero, forcing an immediate exit (with the usual
renewal cases on the predicted side); only when the delta is 0 (NaN risk,
all comparisons false) does the tick behave exactly as the spec's risk = 0
variant. -/
theorem C3_degenerate_volatility (p : ℤ) (s : Position) (cp std prob : ℚ)
    (hside : s.side ≠ 0) (hstd : s.std = 0) :
    ((cp - s.price) * (s.side : ℚ) ≠ 0 →
      decide_position p s cp std prob =
        if predictedSide prob = s.side then ⟨s.side, p, cp, std⟩
        else if predictedSide prob = -s.side then
          ⟨predictedSide prob, p, cp, std⟩
        else initPosition) ∧
    ((cp - s.price) * (s.side : ℚ) = 0 →
      decide_position p s cp std prob =
        decide_position_risk0 p s cp std prob) := by
  constructor
  · intro hdelta
    have hflag : (decide (s.count - 1 = 0) ||
        risk_gt_rikaku ((cp - s.price) * (s.side : ℚ)) s.std ||
        risk_lt_sonkiri ((cp - s.price) * (s.side : ℚ)) s.std) = true := by
      rcases lt_or_gt_of_ne hdelta with hlt | hgt
      · simp [risk_lt_sonkiri, hstd, hlt]
      · simp [risk_gt_rikaku, hstd, hgt]
    rw [decide_position_holding_exit p s cp std prob hside hflag]
    rfl
  · intro hdelta
    simp [decide_position, decide_position_risk0, risk_gt_rikaku,
      risk_lt_sonkiri, hstd, hdelta]

/-- Claim C3 witness: a zero-volatility position with positive delta whose
predicted side matches the prior side reopens immediately with fresh
fields. -/
theorem C3_witness :
    decide_position 30 ⟨1, 5, 100, 0⟩ 101 3 (9 / 10) = ⟨1, 30, 101, 3⟩ := by
  have h := (C3_degenerate_volatility 30 ⟨1, 5, 100, 0⟩ 101 3 (9 / 10)
    (by norm_num) rfl).1 (by push_cast; norm_num)
  rw [h]
  norm_num [predictedSide, predicted_side_thr, THRESHOLD_UP, THRESHOLD_DOWN]

/-- Claim C4 counterexample: an oracle raw output of 3/2 (outside the unit
interval) is clamped rather than reported, the tick's transition is not
skipped, and the Flat position opens long — it is not left unchanged. -/
theorem C4_counterexample :
    decide_position 30 initPosition 100 5
      (predict_up_probability_clamp (3 / 2)) ≠ initPosition := by
  have h : decide_position 30 initPosition 100 5
      (predict_up_probability_clamp (3 / 2)) = ⟨1, 30, 100, 5⟩ := by
    with_unfolding_all rfl
  rw [h]
  intro he
  have h10 : (1 : ℤ) = 0 := congrArg Position.side he
  norm_num at h10

/-- Claim C4 amended: an out-of-range oracle output is silently clamped
into the unit interval by predict_up_probability and the decision step runs
with the clamped value — above 1 it behaves as probability 1 (opens long
from Flat), below 0 it behaves as probability 0 (opens short from Flat);
no InvalidOracleOutput path exists. -/
theorem C4_oracle_clamped (x : ℚ) (p : ℤ) (cp std : ℚ) :
    0 ≤ predict_up_probability_clamp x ∧ predict_up_probability_clamp x ≤ 1 ∧
    (1 < x →
      decide_position p initPosition cp std (predict_up_probability_clamp x) =
        ⟨1, p, cp, std⟩) ∧
    (x < 0 →
      decide_position p initPosition cp std (predict_up_probability_clamp x) =
        ⟨-1, p, cp, std⟩) := by
  refine ⟨le_max_left _ _, max_le (by norm_num) (min_le_left _ _),
    fun h => ?_, fun h => ?_⟩
  · have hc : predict_up_probability_clamp x = 1 := by
      rw [predict_up_probability_clamp, min_eq_left h.le]
      norm_num
    have hpred : predictedSide 1 = 1 := by
      norm_num [predictedSide, predicted_side_thr, THRESHOLD_UP]
    rw [hc, decide_position_flat p initPosition cp std 1 rfl,
      if_pos (by simp [hpred]), hpred]
  · have hc : predict_up_probability_clamp x = 0 := by
      rw [predict_up_probability_clamp, min_eq_right (by linarith),
        max_eq_left h.le]
    have hpred : predictedSide 0 = -1 := by
      norm_num [predictedSide, predicted_side_thr, THRESHOLD_UP, THRESHOLD_DOWN]
    rw [hc, decide_position_flat p initPosition cp std 0 rfl,
      if_pos (by simp [hpred]), hpred]

/-- Claim C4 witness: raw output 2 is clamped and opens a long position
from Flat. -/
theorem C4_witness :
    decide_position 30 initPosition 100 5 (predict_up_probability_clamp 2) =
      ⟨1, 30, 100, 5⟩ :=
  (C4_oracle_clamped 2 30 100 5).2.2.1 (by norm_num)

end Liza
